import Mathlib

/-!
Verification of the `digital_ocean_domain` Ansible module
(`lib/ansible/modules/cloud/digital_ocean/digital_ocean_domain.py`).

The module is sequential glue over the DigitalOcean REST API: it looks up a
domain by id or name, then issues at most one create / update / delete call.
We embed the module functions (`DoManager.find`, `DoManager.add`,
`DoManager.destroy_domain`, `DoManager.edit_domain_record`,
`DoManager.all_domain_records`, `core`) as Lean functions over an explicit
provider environment, and record the HTTP calls each run issues as a trace.

The HTTP helper (`DigitalOceanHelper`) is an external collaborator that is not
part of this repository; its responses are modelled by the `Provider`
environment according to the documented API contract:
`GET domains/` returns a list of domains, `POST domains/` returns a status
code and a JSON body, `GET domains/.../records/` returns a record list, and
`PUT domains/.../records/...` with payload `name` renames the addressed record.
Python `None` values appearing where the module formats or compares them are
modelled explicitly via `Option`.
-/

namespace DigitalOceanDomain

/-- A DNS domain as returned by the provider listing (`GET domains/`); the
module inspects its `id` and `name` fields. -/
structure Domain where
  id : Int
  name : String
deriving DecidableEq

/-- A DNS record of a domain (`GET domains/{id}/records/`). The module reads
`record.name`, `record.type` and `record.data`; the provider additionally
addresses a record by its identifier in the `PUT` path, modelled by `rid`
(stored as the string that would appear as the path segment). `rtype` stands
for the `type` field of the source. -/
structure DomainRecord where
  rid : String
  name : String
  rtype : String
  data : String
deriving DecidableEq

/-- A raw provider JSON payload as far as the module inspects it: it may carry
a `message` field; `rest` stands for the remaining content, which the module
passes through unchanged. -/
structure ErrPayload where
  message : Option String
  rest : String
deriving DecidableEq

/-- Response of `POST domains/` as the module reads it: the status code, the
`domain` object of the body (well-formed when the provider signals creation
with status 201, per the API contract), and the body viewed as a raw payload
otherwise. -/
structure PostResp where
  status : Nat
  jsonDomain : Domain
  jsonErr : ErrPayload
deriving DecidableEq

/-- The remote provider as observed over one module run: the answers it gives
to the HTTP calls the module may make, and its record store for the domain
being reconciled.  `deleteStatus` is the response to `DELETE domains/{id}`,
which `destroy_domain` ignores entirely. -/
structure Provider where
  domains : List Domain
  records : List DomainRecord
  postResp : PostResp
  deleteStatus : Nat
deriving DecidableEq

/-- The module parameters (`module.params`): `state` has default "present";
`name`, `ip` and `id` are `None` when not supplied. -/
structure Params where
  state : String
  name : Option String
  ip : Option String
  id : Option Int
deriving DecidableEq

/-- One HTTP call issued by the module, with the data that determines its
path and payload. `putRecord` records the `PUT domains/{id}/records/{seg}`
call of `edit_domain_record`: the second path segment `seg` is the module's
`ip` parameter (not a record identifier), and the payload carries only the
`name` key. -/
inductive ApiCall where
  | listDomains
  | postDomain (name : Option String) (ip_address : Option String)
  | listRecords (domainId : Option Int)
  | putRecord (domainId : Option Int) (seg : Option String) (payloadName : Option String)
  | deleteDomain (domainId : Option Int)
deriving DecidableEq

/-- Whether a call is the domain-creation `POST`. -/
def isPost : ApiCall → Bool
  | .postDomain _ _ => true
  | _ => false

/-- Whether a call is the record-update `PUT`. -/
def isPut : ApiCall → Bool
  | .putRecord _ _ _ => true
  | _ => false

/-- Whether a call is the domain `DELETE`. -/
def isDelete : ApiCall → Bool
  | .deleteDomain _ => true
  | _ => false

/-- Whether a call is the unfiltered domain listing `GET domains/`. -/
def isListing : ApiCall → Bool
  | .listDomains => true
  | _ => false

/-- Whether a call writes provider state (create, update or delete). -/
def isWrite (c : ApiCall) : Bool := isPost c || isPut c || isDelete c

/-- Number of calls of a given kind in a trace. -/
def countCall (tr : List ApiCall) (f : ApiCall → Bool) : Nat :=
  (tr.filter f).length

/-- The loop of `DoManager.find` (source lines 102-107): for each listed
domain, first compare its id with the `id` parameter, then its name with the
`name` parameter; the first entry passing either test is returned. -/
def findScan (domainId : Int) (domainName : String) : List Domain → Option Domain
  | [] => none
  | d :: ds =>
      if d.id = domainId then some d
      else if d.name = domainName then some d
      else findScan domainId domainName ds

/-- `DoManager.find` (source lines 98-109): returns not-found immediately when
the `name` parameter is `None` OR the `id` parameter is `None`; otherwise
lists all domains (one call) and scans them.  The result is paired with the
trace of HTTP calls made. -/
def find (p : Params) (prov : Provider) : Option Domain × List ApiCall :=
  match p.name, p.id with
  | some n, some i => (findScan i n prov.domains, [ApiCall.listDomains])
  | _, _ => (none, [])

/-- `DoManager.add` (source lines 111-119): `POST domains/` with payload
exactly `{name, ip_address}`; on status 201 return the body's `domain`
object, otherwise return the raw body. -/
def add (p : Params) (prov : Provider) : (Domain ⊕ ErrPayload) × List ApiCall :=
  ((if prov.postResp.status = 201 then Sum.inl prov.postResp.jsonDomain
    else Sum.inr prov.postResp.jsonErr),
   [ApiCall.postDomain p.name p.ip])

/-- `DoManager.all_domain_records` (source lines 121-123): one
`GET domains/{id}/records/` call returning the record list. -/
def all_domain_records (p : Params) (prov : Provider) :
    List DomainRecord × List ApiCall :=
  (prov.records, [ApiCall.listRecords p.id])

/-- `DoManager.destroy_domain` (source lines 125-127): one
`DELETE domains/{id}` call; returns `True` unconditionally, without reading
the provider's response. -/
def destroy_domain (p : Params) : Bool × List ApiCall :=
  (true, [ApiCall.deleteDomain p.id])

/-- Python `"%s" % v` for a possibly-absent string: `None` prints as
`"None"`. -/
def pyStr : Option String → String
  | some s => s
  | none => "None"

/-- Provider-side effect of `PUT domains/{d}/records/{seg}` with payload
`{name : n}`: the record whose identifier matches the path segment has its
`name` field replaced; no other field of any record is touched (the payload
carries no `data` key). -/
def applyPut (recs : List DomainRecord) (seg : String) (n : String) :
    List DomainRecord :=
  recs.map fun r => if r.rid = seg then { r with name := n } else r

/-- `DoManager.edit_domain_record` (source lines 129-132): one
`PUT domains/{id}/records/{ip}` call — the record path segment is the `ip`
parameter — with payload `{name}` only.  Returns the provider state after the
call and the trace. -/
def edit_domain_record (p : Params) (prov : Provider) :
    Provider × List ApiCall :=
  ({ prov with records := applyPut prov.records (pyStr p.ip) (pyStr p.name) },
   [ApiCall.putRecord p.id p.ip p.name])

/-- The value the module reports in the `domain` field of `exit_json`. -/
inductive Reported where
  | nothing
  | createdDomain (d : Domain)
  | rawPayload (e : ErrPayload)
  | findResult (r : Option Domain)
deriving DecidableEq

/-- The terminal behaviour of one run of `core`:
`exited changed rep` is `module.exit_json(changed=..., domain=...)`;
`failed msg` is `module.fail_json(changed=False, msg=...)` (the module always
passes `changed=False` there);
`crashed err` is an unhandled Python exception raised inside `core`;
`noOutput` means `core` returned without calling `exit_json` or `fail_json`,
so the process ends without reporting any result. -/
inductive Outcome where
  | exited (changed : Bool) (domain : Reported)
  | failed (msg : String)
  | crashed (err : String)
  | noOutput
deriving DecidableEq

/-- The `@`/`A` scan of `core` (source lines 149-152): iterates over all
records, keeping the LAST one whose name is `"@"` and type is `"A"` (the loop
does not break). -/
def scanAtRecord (recs : List DomainRecord) : Option DomainRecord :=
  recs.foldl (fun acc r => if r.name = "@" ∧ r.rtype = "A" then some r else acc)
    none

/-- The Python comparison `at_record.data == module.params.get('ip')`:
comparing a string with `None` yields `False`. -/
def dataEqIp (recData : String) (ip : Option String) : Bool :=
  match ip with
  | some s => recData = s
  | none => false

/-- `core` (source lines 135-162): one reconciliation pass.  Returns the
terminal outcome, the HTTP calls issued in order, and the provider state
afterwards.  The missing-root-record case dereferences `None`
(`at_record.data` with `at_record = None`), an `AttributeError`; the
equal-data case falls out of `core` without reporting. -/
def core (p : Params) (prov : Provider) : Outcome × List ApiCall × Provider :=
  if p.state = "present" then
    match (find p prov).1 with
    | none =>
        match (add p prov).1 with
        | Sum.inl d =>
            (Outcome.exited true (Reported.createdDomain d),
             (find p prov).2 ++ (add p prov).2, prov)
        | Sum.inr e =>
            match e.message with
            | some m =>
                (Outcome.failed m, (find p prov).2 ++ (add p prov).2, prov)
            | none =>
                (Outcome.exited true (Reported.rawPayload e),
                 (find p prov).2 ++ (add p prov).2, prov)
    | some _ =>
        match scanAtRecord (all_domain_records p prov).1 with
        | none =>
            (Outcome.crashed "AttributeError: NoneType object has no attribute data",
             (find p prov).2 ++ (all_domain_records p prov).2, prov)
        | some rec =>
            if dataEqIp rec.data p.ip then
              (Outcome.noOutput,
               (find p prov).2 ++ (all_domain_records p prov).2, prov)
            else
              (Outcome.exited true
                 (Reported.findResult (find p (edit_domain_record p prov).1).1),
               (find p prov).2 ++ (all_domain_records p prov).2 ++
                 (edit_domain_record p prov).2 ++
                 (find p (edit_domain_record p prov).1).2,
               (edit_domain_record p prov).1)
  else if p.state = "absent" then
    match (find p prov).1 with
    | none => (Outcome.failed "Domain not found.", (find p prov).2, prov)
    | some _ =>
        (Outcome.exited (destroy_domain p).1 Reported.nothing,
         (find p prov).2 ++ (destroy_domain p).2, prov)
  else
    (Outcome.noOutput, (find p prov).2, prov)

/-- The `message` field of the value `DoManager.add` returns: a `Domain`
object carries none; a raw payload carries its `message` entry. -/
def resultMessage : Domain ⊕ ErrPayload → Option String
  | Sum.inl _ => none
  | Sum.inr e => e.message

/-! ### Concrete fixtures used by the witnesses and counterexamples -/

/-- A successful creation response (status 201) returning `d`. -/
def okPost (d : Domain) : PostResp := ⟨201, d, ⟨none, ""⟩⟩

/-- C1 fixture: domain 3 exists but its record list has no `"@"`/`"A"`
record. -/
def c1Params : Params := ⟨"present", some "example.com", some "127.0.0.1", some 3⟩

/-- C1 fixture provider. -/
def c1Prov : Provider :=
  ⟨[⟨3, "example.com"⟩], [⟨"101", "www", "CNAME", "example.com"⟩],
   okPost ⟨3, "example.com"⟩, 204⟩

/-- C2 fixture: domain 1 exists and its root A record already holds the
desired ip. -/
def c2Params : Params := ⟨"present", some "example.com", some "1.2.3.4", some 1⟩

/-- C2 fixture provider. -/
def c2Prov : Provider :=
  ⟨[⟨1, "example.com"⟩], [⟨"42", "@", "A", "1.2.3.4"⟩],
   okPost ⟨1, "example.com"⟩, 204⟩

/-- C3 fixture: only `name` is supplied, and a listed domain carries exactly
that name. -/
def c3Params : Params := ⟨"present", some "example.com", some "127.0.0.1", none⟩

/-- C3 fixture provider. -/
def c3Prov : Provider :=
  ⟨[⟨3, "example.com"⟩], [], okPost ⟨3, "example.com"⟩, 204⟩

/-- C3 witness fixture: both `id` and `name` supplied. -/
def c3wParams : Params := ⟨"present", some "a.com", some "1.1.1.1", some 5⟩

/-- C3 witness fixture provider. -/
def c3wProv : Provider :=
  ⟨[⟨4, "b.com"⟩, ⟨5, "a.com"⟩], [], okPost ⟨5, "a.com"⟩, 204⟩

/-- C4 fixture: domain 1 exists, root A record holds "1.2.3.4", desired ip is
"5.6.7.8". -/
def c4Params : Params := ⟨"present", some "example.com", some "5.6.7.8", some 1⟩

/-- C4 fixture provider. -/
def c4Prov : Provider :=
  ⟨[⟨1, "example.com"⟩], [⟨"42", "@", "A", "1.2.3.4"⟩],
   okPost ⟨1, "example.com"⟩, 204⟩

/-- C5 witness fixture: no domain listed, creation succeeds (201). -/
def c5Params : Params := ⟨"present", some "my.example.com", some "127.0.0.1", some 7⟩

/-- C5 witness fixture provider. -/
def c5Prov : Provider := ⟨[], [], okPost ⟨7, "my.example.com"⟩, 204⟩

/-- C6 witness fixture parameters. -/
def c6Params : Params := ⟨"present", some "my.example.com", some "127.0.0.1", some 7⟩

/-- C6 witness fixture provider: the provider signals creation (201). -/
def c6Prov : Provider := ⟨[], [], okPost ⟨7, "my.example.com"⟩, 204⟩

/-- C7 witness fixture: `state=absent` and domain 11 exists. -/
def c7Params : Params := ⟨"absent", some "del.example.com", none, some 11⟩

/-- C7 witness fixture provider. -/
def c7Prov : Provider :=
  ⟨[⟨11, "del.example.com"⟩], [], okPost ⟨11, "del.example.com"⟩, 204⟩

/-- C8 fixture: `state=absent`, both `id` and `name` supplied, no listed
domain matches. -/
def c8Params : Params := ⟨"absent", some "gone.example.com", none, some 9⟩

/-- C8 fixture provider. -/
def c8Prov : Provider := ⟨[⟨1, "other.com"⟩], [], okPost ⟨1, "other.com"⟩, 204⟩

/-- C9 witness fixture: neither `id` nor `name` supplied. -/
def c9Params : Params := ⟨"present", none, none, none⟩

/-- C9 witness fixture provider. -/
def c9Prov : Provider := ⟨[⟨1, "a.com"⟩], [], okPost ⟨1, "a.com"⟩, 204⟩

/-- C10 fixture: `state=absent`, only `name` supplied, and the domain DOES
exist in the provider listing. -/
def c10Params : Params := ⟨"absent", some "example.com", none, none⟩

/-- C10 fixture provider. -/
def c10Prov : Provider :=
  ⟨[⟨2, "example.com"⟩], [], okPost ⟨2, "example.com"⟩, 204⟩

/-- C10 witness fixture: `state=present`, only `name` supplied. -/
def c10wParams : Params := ⟨"present", some "example.com", some "127.0.0.1", none⟩

/-! ### Helper lemmas about the embedded operations -/

/-- The trace of `find` is empty (guard branch) or a single listing call. -/
theorem find_calls (p : Params) (prov : Provider) :
    (find p prov).2 = [] ∨ (find p prov).2 = [ApiCall.listDomains] := by
  unfold find
  cases p.name <;> cases p.id <;> simp

/-- When `find` returns a domain, it made exactly one listing call. -/
theorem find_found_calls (p : Params) (prov : Provider)
    (h : (find p prov).1.isSome) : (find p prov).2 = [ApiCall.listDomains] := by
  obtain ⟨st, nm, ip, pid⟩ := p
  cases nm <;> cases pid <;> simp [find] at h ⊢

/-- The per-entry two-step comparison of the `find` loop computes the first
entry matching the disjunction of the two tests. -/
theorem findScan_eq_first_match (i : Int) (n : String) (ds : List Domain) :
    findScan i n ds =
      ds.find? (fun d => decide (d.id = i) || decide (d.name = n)) := by
  induction ds with
  | nil => rfl
  | cons d ds ih =>
      by_cases h1 : d.id = i
      · simp [findScan, h1, List.find?]
      · by_cases h2 : d.name = n
        · simp [findScan, h1, h2, List.find?]
        · simp [findScan, h1, h2, List.find?, ih]

/-- The provider-side record update applies the payload `{name}` only: the
`data` field of every stored record is unchanged by the PUT. -/
theorem applyPut_preserves_data (recs : List DomainRecord) (seg n : String) :
    (applyPut recs seg n).map DomainRecord.data =
      recs.map DomainRecord.data := by
  induction recs with
  | nil => rfl
  | cons r rs ih =>
      by_cases h : r.rid = seg <;> simp [applyPut, h] <;>
        simpa [applyPut] using ih

/-- Shape of `core` for `state=absent` when `find` returns not-found. -/
theorem core_absent_notfound (p : Params) (prov : Provider)
    (hs : p.state = "absent") (hf : (find p prov).1 = none) :
    core p prov = (Outcome.failed "Domain not found.", (find p prov).2, prov) := by
  unfold core
  rw [hs, hf]
  simp

/-- Shape of `core` for `state=absent` when `find` returns a domain. -/
theorem core_absent_found (p : Params) (prov : Provider) (d : Domain)
    (hs : p.state = "absent") (hf : (find p prov).1 = some d) :
    core p prov = (Outcome.exited true Reported.nothing,
      (find p prov).2 ++ [ApiCall.deleteDomain p.id], prov) := by
  unfold core
  rw [hs, hf]
  simp [destroy_domain]

/-- Shape of `core` for `state=present`, domain not found, creation status
201. -/
theorem core_present_created (p : Params) (prov : Provider)
    (hs : p.state = "present") (hf : (find p prov).1 = none)
    (h201 : prov.postResp.status = 201) :
    core p prov =
      (Outcome.exited true (Reported.createdDomain prov.postResp.jsonDomain),
       (find p prov).2 ++ [ApiCall.postDomain p.name p.ip], prov) := by
  unfold core
  rw [hs, hf]
  simp [add, h201]

/-- Shape of `core` for `state=present`, domain not found, creation rejected
with a `message` in the payload. -/
theorem core_present_add_msg (p : Params) (prov : Provider) (m : String)
    (hs : p.state = "present") (hf : (find p prov).1 = none)
    (h201 : prov.postResp.status ≠ 201)
    (hmsg : prov.postResp.jsonErr.message = some m) :
    core p prov = (Outcome.failed m,
      (find p prov).2 ++ [ApiCall.postDomain p.name p.ip], prov) := by
  unfold core
  rw [hs, hf]
  simp [add, h201, hmsg]

/-- Shape of `core` for `state=present`, domain not found, creation rejected
without a `message` in the payload. -/
theorem core_present_add_nomsg (p : Params) (prov : Provider)
    (hs : p.state = "present") (hf : (find p prov).1 = none)
    (h201 : prov.postResp.status ≠ 201)
    (hmsg : prov.postResp.jsonErr.message = none) :
    core p prov =
      (Outcome.exited true (Reported.rawPayload prov.postResp.jsonErr),
       (find p prov).2 ++ [ApiCall.postDomain p.name p.ip], prov) := by
  unfold core
  rw [hs, hf]
  simp [add, h201, hmsg]

/-! ### Claim theorems -/

/-- C1 (code bug): with `state=present`, the domain found, and no `"@"`/`"A"`
record in the domain's record list, `core` does not produce a structured
`ZoneRecordMissing` failure: it dereferences `None` (`at_record.data`), an
unhandled `AttributeError`, issuing no write call. -/
theorem C1_missing_root_record_crashes :
    (core c1Params c1Prov).1 =
      Outcome.crashed "AttributeError: NoneType object has no attribute data" ∧
    countCall (core c1Params c1Prov).2.1 isWrite = 0 := by
  decide

/-- C2 (code bug): with `state=present`, the domain found, and the root
`"@"`/`"A"` record's data equal to the desired ip, `core` issues zero write
calls (that half of the claim holds) but terminates WITHOUT reporting any
result: it falls out of `core` without calling `exit_json`, so no
`changed=false` is ever reported, on the first run or on a repeated one. -/
theorem C2_noop_writes_nothing_reports_nothing :
    countCall (core c2Params c2Prov).2.1 isWrite = 0 ∧
    (core c2Params c2Prov).1 = Outcome.noOutput := by
  decide

/-- C3 (counterexample): `name` is supplied (so at least one of `id`/`name`
is), a listed domain bears exactly that name, yet `find` returns not-found and
performs no listing call at all — because the guard returns early when EITHER
parameter is `None`, not only when both are. -/
theorem C3_counterexample :
    c3Params.name = some "example.com" ∧ c3Params.id = none ∧
    (⟨3, "example.com"⟩ : Domain) ∈ c3Prov.domains ∧
    find c3Params c3Prov = (none, []) := by
  decide

/-- C3 (amended): when BOTH `id` and `name` are supplied, `find` performs
exactly one listing call and returns the first entry in iteration order that
matches (id equality checked before name equality within each entry), and
returns not-found exactly when no entry matches.  When either parameter is
missing it returns not-found without any call. -/
theorem C3_find_requires_both (p : Params) (prov : Provider) (i : Int)
    (n : String) (hi : p.id = some i) (hn : p.name = some n) :
    (find p prov).2 = [ApiCall.listDomains] ∧
    (find p prov).1 =
      prov.domains.find? (fun d => decide (d.id = i) || decide (d.name = n)) ∧
    ((find p prov).1 = none ↔ ∀ d ∈ prov.domains, d.id ≠ i ∧ d.name ≠ n) := by
  have h : find p prov = (findScan i n prov.domains, [ApiCall.listDomains]) := by
    unfold find
    rw [hn, hi]
  rw [h]
  refine ⟨rfl, findScan_eq_first_match i n prov.domains, ?_⟩
  rw [findScan_eq_first_match, List.find?_eq_none]
  simp

/-- C3 witness: the amended theorem evaluated on a concrete listing where the
second entry matches by id. -/
theorem C3_witness :
    (find c3wParams c3wProv).2 = [ApiCall.listDomains] ∧
    (find c3wParams c3wProv).1 =
      c3wProv.domains.find?
        (fun d => decide (d.id = 5) || decide (d.name = "a.com")) ∧
    ((find c3wParams c3wProv).1 = none ↔
      ∀ d ∈ c3wProv.domains, d.id ≠ 5 ∧ d.name ≠ "a.com") :=
  C3_find_requires_both c3wParams c3wProv 5 "a.com" rfl rfl

/-- C4 (code bug): with `state=present`, the domain found and the root record
data `"1.2.3.4"` different from the desired ip `"5.6.7.8"`, `core` does issue
exactly one update call and reports `changed=true` — but the `PUT` path
addresses the record by the IP value (`"5.6.7.8"`) instead of the record's
identifier (`"42"`), and its payload carries only `name`, so after the run the
record's data is still `"1.2.3.4"`, not `"5.6.7.8"`. -/
theorem C4_update_call_leaves_data_unchanged :
    countCall (core c4Params c4Prov).2.1 isPut = 1 ∧
    (core c4Params c4Prov).2.1.filter isPut =
      [ApiCall.putRecord (some 1) (some "5.6.7.8") (some "example.com")] ∧
    (core c4Params c4Prov).1 =
      Outcome.exited true (Reported.findResult (some ⟨1, "example.com"⟩)) ∧
    (core c4Params c4Prov).2.2.records.map DomainRecord.data = ["1.2.3.4"] := by
  decide

/-- C5: with `state=present` and no domain found, `core` issues exactly one
create call, whose payload is exactly the `name` and `ip` parameters; it
reports a failure with the provider's message exactly when the value `add`
returned carries a `message` field, and otherwise reports `changed=true`
together with the value `add` returned. -/
theorem C5_create_path (p : Params) (prov : Provider)
    (hs : p.state = "present") (hf : (find p prov).1 = none) :
    (core p prov).2.1.filter isPost = [ApiCall.postDomain p.name p.ip] ∧
    countCall (core p prov).2.1 isWrite = 1 ∧
    (∀ m, (core p prov).1 = Outcome.failed m ↔
      resultMessage (add p prov).1 = some m) ∧
    (∀ d, (add p prov).1 = Sum.inl d →
      (core p prov).1 = Outcome.exited true (Reported.createdDomain d)) ∧
    (∀ e, (add p prov).1 = Sum.inr e → e.message = none →
      (core p prov).1 = Outcome.exited true (Reported.rawPayload e)) := by
  rcases find_calls p prov with htr | htr
  all_goals by_cases h201 : prov.postResp.status = 201
  · have hadd : (add p prov).1 = Sum.inl prov.postResp.jsonDomain := by
      simp [add, h201]
    rw [core_present_created p prov hs hf h201]
    simp [htr, hadd, resultMessage, countCall, isWrite, isPost, isPut, isDelete]
  · have hadd : (add p prov).1 = Sum.inr prov.postResp.jsonErr := by
      simp [add, h201]
    cases hmsg : prov.postResp.jsonErr.message with
    | some m =>
        rw [core_present_add_msg p prov m hs hf h201 hmsg]
        simp [htr, hadd, hmsg, resultMessage, countCall, isWrite, isPost,
          isPut, isDelete]
    | none =>
        rw [core_present_add_nomsg p prov hs hf h201 hmsg]
        simp [htr, hadd, hmsg, resultMessage, countCall, isWrite, isPost,
          isPut, isDelete]
  · have hadd : (add p prov).1 = Sum.inl prov.postResp.jsonDomain := by
      simp [add, h201]
    rw [core_present_created p prov hs hf h201]
    simp [htr, hadd, resultMessage, countCall, isWrite, isPost, isPut, isDelete]
  · have hadd : (add p prov).1 = Sum.inr prov.postResp.jsonErr := by
      simp [add, h201]
    cases hmsg : prov.postResp.jsonErr.message with
    | some m =>
        rw [core_present_add_msg p prov m hs hf h201 hmsg]
        simp [htr, hadd, hmsg, resultMessage, countCall, isWrite, isPost,
          isPut, isDelete]
    | none =>
        rw [core_present_add_nomsg p prov hs hf h201 hmsg]
        simp [htr, hadd, hmsg, resultMessage, countCall, isWrite, isPost,
          isPut, isDelete]

/-- C5 witness: the creation path evaluated on a concrete empty listing with a
successful (201) creation response. -/
theorem C5_witness :
    (core c5Params c5Prov).2.1.filter isPost =
      [ApiCall.postDomain (some "my.example.com") (some "127.0.0.1")] ∧
    countCall (core c5Params c5Prov).2.1 isWrite = 1 :=
  ⟨(C5_create_path c5Params c5Prov rfl rfl).1,
   (C5_create_path c5Params c5Prov rfl rfl).2.1⟩

/-- C6: `add` issues one create call with payload `{name, ip_address}`, and
returns the new domain object exactly when the provider responds with the
creation status 201, and otherwise returns the raw provider payload
unchanged. -/
theorem C6_add_result (p : Params) (prov : Provider) :
    (add p prov).2 = [ApiCall.postDomain p.name p.ip] ∧
    (∀ d, (add p prov).1 = Sum.inl d ↔
      (prov.postResp.status = 201 ∧ d = prov.postResp.jsonDomain)) ∧
    (∀ e, (add p prov).1 = Sum.inr e ↔
      (prov.postResp.status ≠ 201 ∧ e = prov.postResp.jsonErr)) := by
  refine ⟨rfl, ?_, ?_⟩ <;> intro x <;>
    by_cases h : prov.postResp.status = 201 <;> simp [add, h, eq_comm]

/-- C6 witness: on a 201 response `add` returns the new domain object. -/
theorem C6_witness :
    (add c6Params c6Prov).1 = Sum.inl ⟨7, "my.example.com"⟩ :=
  ((C6_add_result c6Params c6Prov).2.1 ⟨7, "my.example.com"⟩).mpr ⟨rfl, rfl⟩

/-- C7: with `state=absent` and the domain found, `core` issues exactly one
delete call, no other write call, and reports `changed=true`; this holds for
every provider, in particular whatever the response to the `DELETE` call is
(`destroy_domain` returns `True` without reading it). -/
theorem C7_absent_found_deletes (p : Params) (prov : Provider) (d : Domain)
    (hs : p.state = "absent") (hf : (find p prov).1 = some d) :
    (core p prov).1 = Outcome.exited true Reported.nothing ∧
    (core p prov).2.1.filter isDelete = [ApiCall.deleteDomain p.id] ∧
    countCall (core p prov).2.1 isWrite = 1 := by
  have htr : (find p prov).2 = [ApiCall.listDomains] :=
    find_found_calls p prov (by rw [hf]; rfl)
  rw [core_absent_found p prov d hs hf]
  simp [htr, countCall, isWrite, isPost, isPut, isDelete]

/-- C7 witness: the deletion path evaluated on a concrete provider holding
the requested domain. -/
theorem C7_witness :
    (core c7Params c7Prov).1 = Outcome.exited true Reported.nothing ∧
    (core c7Params c7Prov).2.1.filter isDelete =
      [ApiCall.deleteDomain (some 11)] ∧
    countCall (core c7Params c7Prov).2.1 isWrite = 1 :=
  C7_absent_found_deletes c7Params c7Prov ⟨11, "del.example.com"⟩ rfl rfl

/-- C8 (counterexample): with `state=absent` and no matching domain, the
failure message the module reports is `"Domain not found."` — with a trailing
period — not `"Domain not found"` as the claim states. -/
theorem C8_counterexample :
    (core c8Params c8Prov).1 = Outcome.failed "Domain not found." ∧
    (core c8Params c8Prov).1 ≠ Outcome.failed "Domain not found" := by
  decide

/-- C8 (amended): with `state=absent` and no domain found, `core` reports a
failure with message `"Domain not found."` (and `fail_json` always carries
`changed=False`), issuing no delete call and no other write call. -/
theorem C8_absent_notfound_fails (p : Params) (prov : Provider)
    (hs : p.state = "absent") (hf : (find p prov).1 = none) :
    (core p prov).1 = Outcome.failed "Domain not found." ∧
    countCall (core p prov).2.1 isDelete = 0 ∧
    countCall (core p prov).2.1 isWrite = 0 := by
  rw [core_absent_notfound p prov hs hf]
  rcases find_calls p prov with htr | htr <;>
    simp [htr, countCall, isWrite, isPost, isPut, isDelete]

/-- C8 witness: the amended theorem evaluated on a provider whose listing does
not contain the requested domain. -/
theorem C8_witness :
    (core c8Params c8Prov).1 = Outcome.failed "Domain not found." ∧
    countCall (core c8Params c8Prov).2.1 isDelete = 0 ∧
    countCall (core c8Params c8Prov).2.1 isWrite = 0 :=
  C8_absent_notfound_fails c8Params c8Prov rfl rfl

/-- C9: when both `id` and `name` are unset, `find` returns not-found
immediately with an empty call trace — no listing is performed. -/
theorem C9_find_unset_no_call (p : Params) (prov : Provider)
    (hn : p.name = none) (_hi : p.id = none) :
    find p prov = (none, []) := by
  unfold find
  rw [hn]

/-- C9 witness: `find` with both parameters unset on a non-empty provider
listing. -/
theorem C9_witness : find c9Params c9Prov = (none, []) :=
  C9_find_unset_no_call c9Params c9Prov rfl rfl

/-- C10 (counterexample): with only `name` supplied and `state=absent`, the
module does fail even though the domain exists, but the failure message is
`"Domain not found."` — with a trailing period — not `"Domain not found"` as
the claim quotes it. -/
theorem C10_counterexample :
    c10Params.name = some "example.com" ∧ c10Params.id = none ∧
    (⟨2, "example.com"⟩ : Domain) ∈ c10Prov.domains ∧
    (core c10Params c10Prov).1 = Outcome.failed "Domain not found." ∧
    (core c10Params c10Prov).1 ≠ Outcome.failed "Domain not found" := by
  decide

/-- C10 (amended): when exactly one of `id` and `name` is supplied, `find`
returns not-found with no network call; consequently with `state=present` the
create path is always taken (one create call, no listing, no other write) and
with `state=absent` the run always fails with `"Domain not found."` (trailing
period) and no write call — even when the domain exists. -/
theorem C10_single_param_consequences (p : Params) (prov : Provider)
    (h : (p.name ≠ none ∧ p.id = none) ∨ (p.name = none ∧ p.id ≠ none)) :
    find p prov = (none, []) ∧
    (p.state = "present" →
      (core p prov).2.1.filter isPost = [ApiCall.postDomain p.name p.ip] ∧
      countCall (core p prov).2.1 isListing = 0 ∧
      countCall (core p prov).2.1 isPut = 0 ∧
      countCall (core p prov).2.1 isDelete = 0) ∧
    (p.state = "absent" →
      (core p prov).1 = Outcome.failed "Domain not found." ∧
      countCall (core p prov).2.1 isWrite = 0) := by
  have hfind : find p prov = (none, []) := by
    rcases h with ⟨hn, hi⟩ | ⟨hn, -⟩
    · cases hpn : p.name with
      | none => exact absurd hpn hn
      | some a =>
          unfold find
          rw [hpn, hi]
    · unfold find
      rw [hn]
  have hf1 : (find p prov).1 = none := by rw [hfind]
  refine ⟨hfind, fun hsp => ?_, fun hsa => ?_⟩
  · by_cases h201 : prov.postResp.status = 201
    · rw [core_present_created p prov hsp hf1 h201]
      simp [hfind, countCall, isListing, isPost, isPut, isDelete]
    · cases hmsg : prov.postResp.jsonErr.message with
      | some m =>
          rw [core_present_add_msg p prov m hsp hf1 h201 hmsg]
          simp [hfind, countCall, isListing, isPost, isPut, isDelete]
      | none =>
          rw [core_present_add_nomsg p prov hsp hf1 h201 hmsg]
          simp [hfind, countCall, isListing, isPost, isPut, isDelete]
  · rw [core_absent_notfound p prov hsa hf1]
    simp [hfind, countCall, isWrite, isPost, isPut, isDelete]

/-- C10 witness: the amended theorem evaluated with only `name` supplied and
`state=present`, over a provider that does list a domain of that name. -/
theorem C10_witness :
    find c10wParams c10Prov = (none, []) ∧
    (c10wParams.state = "present" →
      (core c10wParams c10Prov).2.1.filter isPost =
        [ApiCall.postDomain (some "example.com") (some "127.0.0.1")] ∧
      countCall (core c10wParams c10Prov).2.1 isListing = 0 ∧
      countCall (core c10wParams c10Prov).2.1 isPut = 0 ∧
      countCall (core c10wParams c10Prov).2.1 isDelete = 0) ∧
    (c10wParams.state = "absent" →
      (core c10wParams c10Prov).1 = Outcome.failed "Domain not found." ∧
      countCall (core c10wParams c10Prov).2.1 isWrite = 0) :=
  C10_single_param_consequences c10wParams c10Prov (Or.inl ⟨by decide, rfl⟩)

end DigitalOceanDomain
